import Mathlib

/-!
Verification of the TamaOS scaffold repository.

The repository has three Python source files:
* `century_life.py` — class `CenturyLifeDevice` with fields `age` (float,
  starts 0.0) and `stage` (string, starts `"Neonate"`), and a method
  `tick(dt=1.0)` that adds `dt` to `age` and returns the snapshot dict
  `{'age': self.age, 'stage': self.stage}`.
* `config.py` — reads environment variables (after `load_dotenv()`), with
  typed defaults: three `float` slots, one `int` slot, three string slots.
* `main.py` — `ensure_dirs()` creates `VFS_PATH` and `LOG_PATH` directories
  with `parents=True, exist_ok=True`.

Python floats are modelled by exact rationals (ℚ), Python ints by ℤ, the
process environment by a function `String → Option String`, and the
directory tree of the filesystem by a finite set of component paths.
-/

/-- Snapshot dict returned by `tick`: `{'age': ..., 'stage': ...}`. -/
structure Snapshot where
  age : ℚ
  stage : String
deriving DecidableEq

/-- Device state: the two instance fields of `CenturyLifeDevice`. -/
structure CenturyLifeDevice where
  age : ℚ
  stage : String
deriving DecidableEq

/-- `__init__`: `self.age = 0.0`, `self.stage = 'Neonate'`. -/
def CenturyLifeDevice.init : CenturyLifeDevice :=
  ⟨0, "Neonate"⟩

/-- `tick(self, dt)`: `self.age += dt; return {'age': self.age, 'stage': self.stage}`.
Returns the updated state together with the snapshot. -/
def CenturyLifeDevice.tick (self : CenturyLifeDevice) (dt : ℚ) :
    CenturyLifeDevice × Snapshot :=
  (⟨self.age + dt, self.stage⟩, ⟨self.age + dt, self.stage⟩)

/-- `tick()` with no argument: the declared default is `dt=1.0`. -/
def CenturyLifeDevice.tickNoArg (self : CenturyLifeDevice) :
    CenturyLifeDevice × Snapshot :=
  self.tick 1

/-- `n` successive calls `tick(dt)`, keeping only the state. -/
def runTicks : Nat → ℚ → CenturyLifeDevice → CenturyLifeDevice
  | 0, _, d => d
  | n + 1, dt, d => runTicks n dt (d.tick dt).1

/-- Apply a whole sequence of `tick` calls with arbitrary arguments. -/
def applyTicks (dts : List ℚ) (d : CenturyLifeDevice) : CenturyLifeDevice :=
  dts.foldl (fun d dt => (d.tick dt).1) d

/-- C1: `tick(dt)` increases the stored `age` field by exactly `dt` and
returns the snapshot `{'age': a, 'stage': s}` where `a` is the age after
the increment and `s` is the device's current `stage` field. -/
theorem tick_adds_dt_and_returns_snapshot (d : CenturyLifeDevice) (dt : ℚ) :
    (d.tick dt).1.age = d.age + dt ∧
    (d.tick dt).2.age = (d.tick dt).1.age ∧
    (d.tick dt).2.stage = d.stage := by
  refine ⟨rfl, rfl, rfl⟩

/-- Auxiliary: `runTicks` adds `n * dt` to the starting age. -/
theorem runTicks_age (n : Nat) (dt : ℚ) (d : CenturyLifeDevice) :
    (runTicks n dt d).age = d.age + n * dt := by
  induction n generalizing d with
  | zero => simp [runTicks]
  | succ n ih =>
    simp only [runTicks, ih, CenturyLifeDevice.tick]
    push_cast
    ring

/-- C2: for every non-negative `dt` and every `n`, after `n` successive
`tick(dt)` calls on a freshly constructed device (age starts at 0.0),
the age equals `n * dt`. -/
theorem fresh_device_n_ticks_age (n : Nat) (dt : ℚ) (_hdt : 0 ≤ dt) :
    (runTicks n dt CenturyLifeDevice.init).age = n * dt := by
  have h := runTicks_age n dt CenturyLifeDevice.init
  simpa [CenturyLifeDevice.init] using h

/-- Witness for C2 at `n = 3`, `dt = 2`. -/
theorem fresh_device_n_ticks_age_witness :
    (runTicks 3 2 CenturyLifeDevice.init).age = (3 : Nat) * 2 :=
  fresh_device_n_ticks_age 3 2 (by norm_num)

/-- C3: every state reachable from a fresh device by any sequence of
`tick` calls has `stage = "Neonate"`, and no `tick` call ever changes
the `stage` field. -/
theorem stage_always_neonate :
    (∀ dts : List ℚ, (applyTicks dts CenturyLifeDevice.init).stage = "Neonate") ∧
    (∀ (d : CenturyLifeDevice) (dt : ℚ), (d.tick dt).1.stage = d.stage) := by
  constructor
  · intro dts
    suffices h : ∀ d : CenturyLifeDevice, (applyTicks dts d).stage = d.stage by
      exact h CenturyLifeDevice.init
    induction dts with
    | nil => intro d; rfl
    | cons x xs ih => intro d; exact ih (d.tick x).1
  · intro d dt
    rfl

/-- C4 counterexample: with `dt = -1` (any numeric value is permitted —
no range check), the age after `tick` is strictly below the age before. -/
theorem tick_not_monotone_counterexample :
    (CenturyLifeDevice.init.tick (-1)).1.age < CenturyLifeDevice.init.age := by
  norm_num [CenturyLifeDevice.tick, CenturyLifeDevice.init]

/-- C4 (amended): for every call `tick(dt)` with non-negative `dt`, the
age after the call is greater than or equal to the age before. -/
theorem tick_age_monotone_nonneg (d : CenturyLifeDevice) (dt : ℚ)
    (hdt : 0 ≤ dt) : d.age ≤ (d.tick dt).1.age := by
  simp only [CenturyLifeDevice.tick]
  linarith

/-- Witness for the amended C4 at a concrete state and `dt = 5`. -/
theorem tick_age_monotone_nonneg_witness :
    CenturyLifeDevice.init.age ≤ (CenturyLifeDevice.init.tick 5).1.age :=
  tick_age_monotone_nonneg CenturyLifeDevice.init 5 (by norm_num)

/-- C8: calling `tick()` with no argument produces exactly the same state
change and the same return value as calling `tick(1.0)`. -/
theorem tickNoArg_eq_tick_one (d : CenturyLifeDevice) :
    d.tickNoArg = d.tick 1 :=
  rfl

/-- C10: `tick` is deterministic — two devices with equal fields and the
same `dt` produce identical resulting states and identical snapshots. -/
theorem tick_deterministic (d₁ d₂ : CenturyLifeDevice) (dt : ℚ)
    (hage : d₁.age = d₂.age) (hstage : d₁.stage = d₂.stage) :
    d₁.tick dt = d₂.tick dt := by
  cases d₁
  cases d₂
  cases hage
  cases hstage
  rfl

/-- Witness for C10 at two concretely equal devices. -/
theorem tick_deterministic_witness :
    CenturyLifeDevice.tick ⟨7, "Neonate"⟩ 2 =
      CenturyLifeDevice.tick ⟨7, "Neonate"⟩ 2 :=
  tick_deterministic ⟨7, "Neonate"⟩ ⟨7, "Neonate"⟩ 2 rfl rfl

/-! ### Configuration loader (`config.py`) -/

/-- Strip leading and trailing whitespace, as Python's `str.strip()`
does before numeric conversion. -/
def stripSpaces (cs : List Char) : List Char :=
  ((cs.dropWhile Char.isWhitespace).reverse.dropWhile Char.isWhitespace).reverse

/-- Numeric value of a list of decimal digit characters. -/
def digitsToNat (ds : List Char) : Nat :=
  ds.foldl (fun a c => a * 10 + (c.toNat - 48)) 0

/-- Split off the longest leading run of decimal digits. -/
def readDigits (cs : List Char) : List Char × List Char :=
  (cs.takeWhile Char.isDigit, cs.dropWhile Char.isDigit)

/-- Consume an optional leading sign, returning the sign and the rest. -/
def readSign : List Char → Int × List Char
  | '+' :: r => (1, r)
  | '-' :: r => (-1, r)
  | r => (1, r)

/-- Consume an optional fractional part `.digits` (the digits may be
empty, as in Python, where `float("1.")` succeeds). -/
def readFrac : List Char → List Char × List Char
  | '.' :: r => readDigits r
  | cs => ([], cs)

/-- Consume an optional exponent `e±digits` / `E±digits`; at least one
exponent digit is required when the marker is present. -/
def readExp : List Char → Option (Int × List Char)
  | [] => some (0, [])
  | c :: r =>
    if c = 'e' ∨ c = 'E' then
      let (sg, r₁) := readSign r
      let (ds, r₂) := readDigits r₁
      if ds.isEmpty then none else some (sg * digitsToNat ds, r₂)
    else some (0, c :: r)

/-- Scale a rational by an integer power of ten. -/
def scaleTen (q : ℚ) (e : Int) : ℚ :=
  if 0 ≤ e then q * 10 ^ e.toNat else q / 10 ^ (-e).toNat

/-- Model of Python's builtin `float(str)` on finite numeric literals:
surrounding whitespace is stripped, then an optional sign, an integer
part, an optional fractional part and an optional exponent are read; at
least one digit must occur in the mantissa and nothing may remain.
(The special spellings `inf`/`nan` and digit underscores are outside the
rational model.) Returns the exact rational value. -/
def pythonParseFloat (s : String) : Option ℚ :=
  let cs := stripSpaces s.toList
  let (sg, cs₁) := readSign cs
  let (ip, cs₂) := readDigits cs₁
  let (fp, cs₃) := readFrac cs₂
  if ip.isEmpty ∧ fp.isEmpty then none
  else
    match readExp cs₃ with
    | none => none
    | some (e, rest) =>
      if rest.isEmpty then
        some (scaleTen ((sg : ℚ) *
          ((digitsToNat ip : ℚ) + (digitsToNat fp : ℚ) / 10 ^ fp.length)) e)
      else none

/-- Model of Python's builtin `int(str)`: surrounding whitespace is
stripped, then an optional sign and a nonempty run of digits must consume
the whole string. (Digit underscores are not modelled.) -/
def pythonParseInt (s : String) : Option Int :=
  let cs := stripSpaces s.toList
  let (sg, cs₁) := readSign cs
  let (ds, rest) := readDigits cs₁
  if ds.isEmpty ∨ ¬ rest.isEmpty then none else some (sg * digitsToNat ds)

/-- An environment: maps a variable name to its value when set. -/
def Env : Type := String → Option String

/-- The seven configuration values of `config.py`, with their Python
types (`float` → ℚ, `int` → ℤ, `str` → `String`). -/
structure Config where
  CENTURY_REAL_SEC : ℚ
  BURST_CAP_PER_HOUR : ℚ
  STASIS_FILL_RATE : ℚ
  STASIS_MAX_HOURS : Int
  VFS_PATH : String
  LOG_PATH : String
  SKIN_MODE : String
deriving DecidableEq

/-- `float(os.getenv(key, default))`: when the variable is absent,
`os.getenv` returns the (already numeric) default, so `float` cannot
fail; when present, the string value must parse as a float. -/
def getFloat (env : Env) (key : String) (dflt : ℚ) : Option ℚ :=
  match env key with
  | none => some dflt
  | some s => pythonParseFloat s

/-- `int(os.getenv(key, default))`, analogously. -/
def getInt (env : Env) (key : String) (dflt : Int) : Option Int :=
  match env key with
  | none => some dflt
  | some s => pythonParseInt s

/-- `os.getenv(key, default)` for the string-valued variables. -/
def getStr (env : Env) (key dflt : String) : String :=
  (env key).getD dflt

/-- Module-level evaluation of `config.py`: each constant is computed in
turn; `none` models the uncaught `ValueError` that aborts the import. -/
def loadConfig (env : Env) : Option Config :=
  match getFloat env "CENTURY_REAL_SEC" 2592000,
      getFloat env "BURST_CAP_PER_HOUR" 1,
      getFloat env "STASIS_FILL_RATE" 0.15,
      getInt env "STASIS_MAX_HOURS" 72 with
  | some c, some b, some f, some m =>
    some ⟨c, b, f, m, getStr env "VFS_PATH" "./vfs",
      getStr env "LOG_PATH" "./logs", getStr env "SKIN_MODE" "BSS"⟩
  | _, _, _, _ => none

/-- The empty environment: no variable is set. -/
def emptyEnv : Env := fun _ => none

/-- Model of `load_dotenv()` from python-dotenv with its default
`override=False`: the process environment wins; a `.env` entry is used
only for variables absent from the process environment. -/
def load_dotenv (procEnv dotenvFile : Env) : Env :=
  fun k =>
    match procEnv k with
    | some v => some v
    | none => dotenvFile k

/-- C5: with no environment variable set, the loader yields exactly the
stated defaults: `CENTURY_REAL_SEC = 2592000`, `BURST_CAP_PER_HOUR = 1.0`,
`STASIS_FILL_RATE = 0.15`, `STASIS_MAX_HOURS = 72` (integer),
`VFS_PATH = "./vfs"`, `LOG_PATH = "./logs"`, `SKIN_MODE = "BSS"`. -/
theorem loadConfig_defaults :
    loadConfig emptyEnv =
      some ⟨2592000, 1, 0.15, 72, "./vfs", "./logs", "BSS"⟩ := by
  simp [loadConfig, getFloat, getInt, getStr, emptyEnv]

/-- `getFloat` fails exactly when the variable is set to an unparsable
string; an absent variable falls back to the numeric default. -/
theorem getFloat_eq_none_iff (env : Env) (key : String) (dflt : ℚ) :
    getFloat env key dflt = none ↔
      ∃ s, env key = some s ∧ pythonParseFloat s = none := by
  cases h : env key <;> simp [getFloat, h]

/-- `getInt` fails exactly when the variable is set to an unparsable
string; an absent variable falls back to the numeric default. -/
theorem getInt_eq_none_iff (env : Env) (key : String) (dflt : Int) :
    getInt env key dflt = none ↔
      ∃ s, env key = some s ∧ pythonParseInt s = none := by
  cases h : env key <;> simp [getInt, h]

/-- The match in `loadConfig` fails exactly when one of the four typed
getters fails. -/
theorem loadConfig_eq_none_iff_getters (env : Env) :
    loadConfig env = none ↔
      (getFloat env "CENTURY_REAL_SEC" 2592000 = none ∨
       getFloat env "BURST_CAP_PER_HOUR" 1 = none ∨
       getFloat env "STASIS_FILL_RATE" 0.15 = none ∨
       getInt env "STASIS_MAX_HOURS" 72 = none) := by
  unfold loadConfig
  cases h₁ : getFloat env "CENTURY_REAL_SEC" 2592000 <;>
    cases h₂ : getFloat env "BURST_CAP_PER_HOUR" 1 <;>
      cases h₃ : getFloat env "STASIS_FILL_RATE" 0.15 <;>
        cases h₄ : getInt env "STASIS_MAX_HOURS" 72 <;>
          simp

/-- C6: configuration loading fails if and only if one of the four typed
environment variables is present with a value that does not coerce to its
declared type (float for the first three, int for `STASIS_MAX_HOURS`);
the string-valued variables can never cause a failure, so this is the
sole failure mode of the loader. -/
theorem loadConfig_fails_iff_bad_typed_var (env : Env) :
    loadConfig env = none ↔
      ((∃ s, env "CENTURY_REAL_SEC" = some s ∧ pythonParseFloat s = none) ∨
       (∃ s, env "BURST_CAP_PER_HOUR" = some s ∧ pythonParseFloat s = none) ∨
       (∃ s, env "STASIS_FILL_RATE" = some s ∧ pythonParseFloat s = none) ∨
       (∃ s, env "STASIS_MAX_HOURS" = some s ∧ pythonParseInt s = none)) := by
  rw [loadConfig_eq_none_iff_getters, getFloat_eq_none_iff,
    getFloat_eq_none_iff, getFloat_eq_none_iff, getInt_eq_none_iff]

/-- C9: a variable absent from the process environment but present in the
`.env` file is taken from the `.env` file — here for `CENTURY_REAL_SEC`,
the loaded value is the parse of the `.env` string, not the default. -/
theorem dotenv_value_used_when_env_absent (pe de : Env) (s : String)
    (q : ℚ) (c : Config)
    (hpe : pe "CENTURY_REAL_SEC" = none)
    (hde : de "CENTURY_REAL_SEC" = some s)
    (hq : pythonParseFloat s = some q)
    (hc : loadConfig (load_dotenv pe de) = some c) :
    c.CENTURY_REAL_SEC = q := by
  have henv : load_dotenv pe de "CENTURY_REAL_SEC" = some s := by
    simp [load_dotenv, hpe, hde]
  have h₁ : getFloat (load_dotenv pe de) "CENTURY_REAL_SEC" 2592000 = some q := by
    simp [getFloat, henv, hq]
  unfold loadConfig at hc
  rw [h₁] at hc
  cases h₂ : getFloat (load_dotenv pe de) "BURST_CAP_PER_HOUR" 1 <;>
    cases h₃ : getFloat (load_dotenv pe de) "STASIS_FILL_RATE" 0.15 <;>
      cases h₄ : getInt (load_dotenv pe de) "STASIS_MAX_HOURS" 72 <;>
        rw [h₂, h₃, h₄] at hc <;> simp at hc
  rw [← hc]

/-- A sample `.env` file setting only `CENTURY_REAL_SEC`. -/
def dotenvSample : Env :=
  fun k => if k = "CENTURY_REAL_SEC" then some "5" else none

/-- Witness for C9: process environment empty, `.env` sets
`CENTURY_REAL_SEC=5`; the loaded value is 5, not the default 2592000. -/
theorem dotenv_value_used_when_env_absent_witness :
    (Config.mk 5 1 0.15 72 "./vfs" "./logs" "BSS").CENTURY_REAL_SEC = 5 :=
  dotenv_value_used_when_env_absent emptyEnv dotenvSample "5" 5
    (Config.mk 5 1 0.15 72 "./vfs" "./logs" "BSS")
    rfl
    (by simp [dotenvSample])
    (by simp +decide [pythonParseFloat, stripSpaces, readSign, readFrac,
      readExp, digitsToNat, scaleTen, readDigits])
    (by simp +decide [loadConfig, getFloat, getInt, getStr, load_dotenv,
      emptyEnv, dotenvSample, pythonParseFloat, stripSpaces, readSign,
      readFrac, readExp, digitsToNat, scaleTen, readDigits])

/-! ### Bootstrap directory creation (`main.py`) -/

/-- Path string → component list, as `pathlib.Path` normalises it:
empty components and `.` components disappear. -/
def pathComponents (p : String) : List String :=
  (p.splitOn "/").filter (fun c => c != "" && c != ".")

/-- The chain of directories `mkdir(parents=True)` guarantees to exist:
every nonempty prefix of the component list, the full path included. -/
def dirChain (p : List String) : List (List String) :=
  (List.range p.length).map (fun i => p.take (i + 1))

/-- `Path(p).mkdir(parents=True, exist_ok=True)` on a directory tree
modelled as the finite set of existing directories: total (with
`exist_ok=True` an existing directory is not an error), it adds the
whole chain of the path and its ancestors. -/
def mkdirParents (p : List String) (fs : Finset (List String)) :
    Finset (List String) :=
  fs ∪ (dirChain p).toFinset

/-- `ensure_dirs()`: `Path(VFS_PATH).mkdir(parents=True, exist_ok=True)`
then `Path(LOG_PATH).mkdir(parents=True, exist_ok=True)`. -/
def ensure_dirs (cfg : Config) (fs : Finset (List String)) :
    Finset (List String) :=
  mkdirParents (pathComponents cfg.LOG_PATH)
    (mkdirParents (pathComponents cfg.VFS_PATH) fs)

/-- C7: for every filesystem state, `ensure_dirs` makes `VFS_PATH` and
`LOG_PATH` exist (missing ancestors included), and a second run leaves
the filesystem unchanged (the operation is total, so no error is
raised). -/
theorem ensure_dirs_idempotent (cfg : Config) (fs : Finset (List String)) :
    ensure_dirs cfg (ensure_dirs cfg fs) = ensure_dirs cfg fs ∧
    (dirChain (pathComponents cfg.VFS_PATH)).toFinset ⊆ ensure_dirs cfg fs ∧
    (dirChain (pathComponents cfg.LOG_PATH)).toFinset ⊆ ensure_dirs cfg fs := by
  refine ⟨?_, ?_, ?_⟩
  · ext x
    simp only [ensure_dirs, mkdirParents, Finset.mem_union]
    tauto
  · intro x hx
    simp only [ensure_dirs, mkdirParents, Finset.mem_union]
    tauto
  · intro x hx
    simp only [ensure_dirs, mkdirParents, Finset.mem_union]
    tauto
